import Mathlib

/-!
Verification of the patched RCT-Folly `Expected.h` header
(`src/patches/ios/rct-folly/Expected.h`).

The artifact is preprocessor text: two comment lines, a blank line, and a
conditional block

  `#if defined(FOLLY_HAS_COROUTINES) && FOLLY_HAS_COROUTINES`
  `#include <folly/coro/Coroutine.h>`
  `#endif`

We embed the relevant fragment of the C/C++ preprocessor shallowly:
an environment maps symbol names to optional integer definitions,
`#if` conditions are a small expression language (integer literals,
`defined(X)`, a symbol's value, and short-circuiting `&&`), and lines are
processed left to right against a state holding the environment, the
emitted output (includes and plain text), the diagnostics raised so far,
and the stack of enclosing conditionals.  Referring to the value of an
undefined symbol raises a diagnostic (the `-Wundef`-style warning the
spec's guard is designed to avoid) and evaluates to 0, exactly as the real
preprocessor behaves; `&&` does not evaluate its right operand when the
left operand is 0.
-/

/-- A preprocessor environment: each symbol is either undefined (`none`) or
defined to an integer constant (`some v`). -/
abbrev PPEnv := String → Option Int

/-- Conditional expressions usable in an `#if` directive: integer literals,
`defined(name)`, the value of a symbol, and short-circuiting `&&`. -/
inductive PPExpr where
  | lit (n : Int)
  | isDefined (name : String)
  | valueOf (name : String)
  | andE (a b : PPExpr)

/-- Evaluate an `#if` condition, returning its integer value together with
the diagnostics raised.  Reading the value of an undefined symbol yields 0
and a warning; `&&` short-circuits, so its right operand is not evaluated
(and can raise no diagnostic) when the left operand is 0. -/
def evalPP (env : PPEnv) : PPExpr → Int × List String
  | .lit n => (n, [])
  | .isDefined name => ((if (env name).isSome then (1 : Int) else 0), [])
  | .valueOf name =>
      match env name with
      | some v => (v, [])
      | none => (0, [String.append "warning: symbol is not defined: " name])
  | .andE a b =>
      let ra := evalPP env a
      if ra.1 = 0 then (0, ra.2)
      else
        let rb := evalPP env b
        ((if rb.1 = 0 then (0 : Int) else 1), ra.2 ++ rb.2)

/-- An item emitted into the translation unit: a textual inclusion of a
header, or a plain source-text line. -/
inductive Emit where
  | includeFile (path : String)
  | text (s : String)

/-- One line of preprocessor source.  The embedding supports more than the
patched header uses (`#define`, `#undef`, plain text) so that frame
properties about the header are not true by construction of the type. -/
inductive PPLine where
  | comment (s : String)
  | blank
  | srcText (s : String)
  | defineSym (name : String) (value : Int)
  | undefSym (name : String)
  | ifDir (cond : PPExpr)
  | endifDir
  | includeDir (path : String)

/-- The state of the preprocessor while scanning a file: the current
environment, the output emitted so far, the diagnostics raised so far, and
one Boolean per enclosing conditional (`true` when its branch is taken). -/
structure PPState where
  env : PPEnv
  output : List Emit
  diags : List String
  stack : List Bool

/-- A line is active when every enclosing conditional took its branch. -/
def PPState.active (st : PPState) : Bool := st.stack.all (fun b => b)

/-- Process one preprocessor line. -/
def processLine (st : PPState) (line : PPLine) : PPState :=
  match line with
  | .comment _ => st
  | .blank => st
  | .srcText s =>
      if st.active then { st with output := st.output ++ [Emit.text s] } else st
  | .includeDir p =>
      if st.active then { st with output := st.output ++ [Emit.includeFile p] } else st
  | .defineSym n v =>
      if st.active then
        { st with env := fun m => if m = n then some v else st.env m }
      else st
  | .undefSym n =>
      if st.active then
        { st with env := fun m => if m = n then none else st.env m }
      else st
  | .ifDir c =>
      if st.active then
        let r := evalPP st.env c
        { st with stack := (r.1 != 0) :: st.stack, diags := st.diags ++ r.2 }
      else { st with stack := false :: st.stack }
  | .endifDir => { st with stack := st.stack.tail }

/-- Process a whole file in the given initial environment. -/
def processFile (lines : List PPLine) (env : PPEnv) : PPState :=
  lines.foldl processLine { env := env, output := [], diags := [], stack := [] }

/-- The guard condition of the patch:
`defined(FOLLY_HAS_COROUTINES) && FOLLY_HAS_COROUTINES`. -/
def follyGuard : PPExpr :=
  PPExpr.andE (PPExpr.isDefined "FOLLY_HAS_COROUTINES")
    (PPExpr.valueOf "FOLLY_HAS_COROUTINES")

/-- The patched `Expected.h`, line by line. -/
def ExpectedH : List PPLine :=
  [ PPLine.comment "Patch: guard coroutine include when FOLLY_HAS_COROUTINES is undefined or false",
    PPLine.comment "Source: Pods/Headers/Public/RCT-Folly/folly/Expected.h (modified)",
    PPLine.blank,
    PPLine.ifDir follyGuard,
    PPLine.includeDir "folly/coro/Coroutine.h",
    PPLine.endifDir ]

/-- Environment with the feature symbol undefined. -/
def envUndef : PPEnv := fun _ => none

/-- Environment with the feature symbol defined to 0. -/
def envZero : PPEnv := fun n => if n = "FOLLY_HAS_COROUTINES" then some 0 else none

/-- Environment with the feature symbol defined to 1. -/
def envOne : PPEnv := fun n => if n = "FOLLY_HAS_COROUTINES" then some 1 else none

/-- Environment with the feature symbol defined to a nonzero value other than 1. -/
def envSeven : PPEnv := fun n => if n = "FOLLY_HAS_COROUTINES" then some 7 else none

/-- Environment agreeing with `envOne` on the feature symbol but defining an
unrelated symbol as well. -/
def envOneNoisy : PPEnv := fun n =>
  if n = "FOLLY_HAS_COROUTINES" then some 1
  else if n = "OTHER_FLAG" then some 42 else none

/-- Full characterization of processing the patched header: the environment,
the diagnostics and the conditional stack are unchanged, and the output is
the single coroutine include exactly when the feature symbol is defined to a
nonzero value, and empty otherwise. -/
theorem processFile_ExpectedH (env : PPEnv) :
    processFile ExpectedH env =
      { env := env,
        output :=
          match env "FOLLY_HAS_COROUTINES" with
          | some v =>
              if v = 0 then [] else [Emit.includeFile "folly/coro/Coroutine.h"]
          | none => [],
        diags := [],
        stack := [] } := by
  cases h : env "FOLLY_HAS_COROUTINES" with
  | none =>
      simp [processFile, ExpectedH, List.foldl, processLine, PPState.active,
        evalPP, follyGuard, h]
  | some v =>
      by_cases hv : v = 0 <;>
        simp [processFile, ExpectedH, List.foldl, processLine, PPState.active,
          evalPP, follyGuard, h, hv]

/-- C1: for every state of the feature symbol (undefined, defined to zero, or
defined to a nonzero integer), the coroutine header is textually included if
and only if the symbol is defined and its value is nonzero. -/
theorem coro_include_iff_defined_nonzero (env : PPEnv) :
    Emit.includeFile "folly/coro/Coroutine.h" ∈ (processFile ExpectedH env).output ↔
      ∃ v : Int, env "FOLLY_HAS_COROUTINES" = some v ∧ v ≠ 0 := by
  rw [processFile_ExpectedH]
  cases h : env "FOLLY_HAS_COROUTINES" with
  | none => simp
  | some v => by_cases hv : v = 0 <;> simp [hv]

/-- C2: with the feature symbol undefined, processing the header emits no
output and no diagnostic; the `defined` conjunct makes the whole guard
evaluate to 0 with no diagnostic, while the bare value test on its own would
have raised the undefined-symbol warning. -/
theorem undef_state_silent (env : PPEnv)
    (h : env "FOLLY_HAS_COROUTINES" = none) :
    (processFile ExpectedH env).output = [] ∧
    (processFile ExpectedH env).diags = [] ∧
    evalPP env follyGuard = (0, []) ∧
    evalPP env (PPExpr.valueOf "FOLLY_HAS_COROUTINES") =
      (0, [String.append "warning: symbol is not defined: " "FOLLY_HAS_COROUTINES"]) := by
  rw [processFile_ExpectedH]
  simp [evalPP, follyGuard, h]

/-- Witness for C2 at the concrete all-undefined environment. -/
theorem undef_state_silent_witness :
    (processFile ExpectedH envUndef).output = [] ∧
    (processFile ExpectedH envUndef).diags = [] ∧
    evalPP envUndef follyGuard = (0, []) ∧
    evalPP envUndef (PPExpr.valueOf "FOLLY_HAS_COROUTINES") =
      (0, [String.append "warning: symbol is not defined: " "FOLLY_HAS_COROUTINES"]) :=
  undef_state_silent envUndef rfl

/-- C3: the guard collapses the tri-state symbol to a binary decision: an
environment defining it to 0 produces the same (empty) output as one leaving
it undefined, and a defined-nonzero environment produces the include. -/
theorem tri_state_collapse (env₀ env₁ env₂ : PPEnv) (v : Int)
    (h₀ : env₀ "FOLLY_HAS_COROUTINES" = some 0)
    (h₁ : env₁ "FOLLY_HAS_COROUTINES" = none)
    (h₂ : env₂ "FOLLY_HAS_COROUTINES" = some v) (hv : v ≠ 0) :
    (processFile ExpectedH env₀).output = (processFile ExpectedH env₁).output ∧
    (processFile ExpectedH env₀).output = [] ∧
    (processFile ExpectedH env₂).output = [Emit.includeFile "folly/coro/Coroutine.h"] := by
  rw [processFile_ExpectedH, processFile_ExpectedH, processFile_ExpectedH]
  simp [h₀, h₁, h₂, hv]

/-- Witness for C3 at the concrete zero, undefined and one environments. -/
theorem tri_state_collapse_witness :
    (processFile ExpectedH envZero).output = (processFile ExpectedH envUndef).output ∧
    (processFile ExpectedH envZero).output = [] ∧
    (processFile ExpectedH envOne).output = [Emit.includeFile "folly/coro/Coroutine.h"] :=
  tri_state_collapse envZero envUndef envOne 1 (by simp [envZero]) rfl
    (by simp [envOne]) one_ne_zero

/-- C4: whenever the feature symbol is defined to a nonzero integer value,
the guard includes the coroutine header. -/
theorem nonzero_value_includes (env : PPEnv) (v : Int)
    (h : env "FOLLY_HAS_COROUTINES" = some v) (hv : v ≠ 0) :
    (processFile ExpectedH env).output = [Emit.includeFile "folly/coro/Coroutine.h"] := by
  rw [processFile_ExpectedH]
  simp [h, hv]

/-- Witness for C4 at the values 1 and 7. -/
theorem nonzero_value_includes_witness :
    (processFile ExpectedH envOne).output = [Emit.includeFile "folly/coro/Coroutine.h"] ∧
    (processFile ExpectedH envSeven).output = [Emit.includeFile "folly/coro/Coroutine.h"] :=
  ⟨nonzero_value_includes envOne 1 (by simp [envOne]) one_ne_zero,
   nonzero_value_includes envSeven 7 (by simp [envSeven]) (by norm_num)⟩

/-- C5: for every environment, processing the patch leaves the symbol table
unchanged: the file contains no define and no undef line, and the resulting
environment agrees with the initial one on every symbol. -/
theorem patch_preserves_env (env : PPEnv) :
    (∀ n v, PPLine.defineSym n v ∉ ExpectedH) ∧
    (∀ n, PPLine.undefSym n ∉ ExpectedH) ∧
    (∀ name, (processFile ExpectedH env).env name = env name) := by
  refine ⟨?_, ?_, ?_⟩
  · intro n v
    simp [ExpectedH]
  · intro n
    simp [ExpectedH]
  · intro name
    rw [processFile_ExpectedH]

/-- C6: for every environment, the output contains at most one inclusion:
it is either empty or exactly the single coroutine include. -/
theorem at_most_one_include (env : PPEnv) :
    (processFile ExpectedH env).output = [] ∨
    (processFile ExpectedH env).output = [Emit.includeFile "folly/coro/Coroutine.h"] := by
  rw [processFile_ExpectedH]
  cases h : env "FOLLY_HAS_COROUTINES" with
  | none => simp
  | some v => by_cases hv : v = 0 <;> simp [hv]

/-- C7: processing the patch raises no preprocessor diagnostic in any
environment, in particular in the undefined, zero and one configurations. -/
theorem no_diagnostics (env : PPEnv) :
    (processFile ExpectedH env).diags = [] := by
  rw [processFile_ExpectedH]

/-- C8: the output and the diagnostics depend only on the feature symbol:
two environments agreeing on `FOLLY_HAS_COROUTINES` yield the same result,
whatever the rest of the symbol table holds. -/
theorem output_noninterference (env₁ env₂ : PPEnv)
    (h : env₁ "FOLLY_HAS_COROUTINES" = env₂ "FOLLY_HAS_COROUTINES") :
    (processFile ExpectedH env₁).output = (processFile ExpectedH env₂).output ∧
    (processFile ExpectedH env₁).diags = (processFile ExpectedH env₂).diags := by
  rw [processFile_ExpectedH, processFile_ExpectedH]
  rw [h]
  exact ⟨rfl, rfl⟩

/-- Witness for C8: two environments agreeing on the feature symbol but
differing on an unrelated symbol produce the same output and diagnostics. -/
theorem output_noninterference_witness :
    (processFile ExpectedH envOneNoisy).output = (processFile ExpectedH envOne).output ∧
    (processFile ExpectedH envOneNoisy).diags = (processFile ExpectedH envOne).diags :=
  output_noninterference envOneNoisy envOne (by simp [envOneNoisy, envOne])

/-- C9: every item the patch emits is the single fixed include of
`folly/coro/Coroutine.h`; the emitted path never varies with the
environment. -/
theorem include_path_fixed (env : PPEnv) (e : Emit)
    (h : e ∈ (processFile ExpectedH env).output) :
    e = Emit.includeFile "folly/coro/Coroutine.h" := by
  rw [processFile_ExpectedH] at h
  revert h
  cases hc : env "FOLLY_HAS_COROUTINES" with
  | none => simp
  | some v =>
      by_cases hv : v = 0 <;> simp [hv]

/-- Witness for C9 at the environment defining the feature symbol to 1. -/
theorem include_path_fixed_witness :
    Emit.includeFile "folly/coro/Coroutine.h" = Emit.includeFile "folly/coro/Coroutine.h" :=
  include_path_fixed envOne (Emit.includeFile "folly/coro/Coroutine.h") (by
    rw [processFile_ExpectedH]
    simp [envOne])

/-- C10: when the guard is off (symbol undefined or defined to zero) the
patched file contributes nothing to the translation unit: the emitted
output is empty. -/
theorem guard_off_empty_output (env : PPEnv)
    (h : env "FOLLY_HAS_COROUTINES" = none ∨ env "FOLLY_HAS_COROUTINES" = some 0) :
    (processFile ExpectedH env).output = [] := by
  rw [processFile_ExpectedH]
  rcases h with h | h <;> simp [h]

/-- Witness for C10 at the undefined and the zero environments. -/
theorem guard_off_empty_output_witness :
    (processFile ExpectedH envUndef).output = [] ∧
    (processFile ExpectedH envZero).output = [] :=
  ⟨guard_off_empty_output envUndef (Or.inl rfl),
   guard_off_empty_output envZero (Or.inr (by simp [envZero]))⟩
